import Mathlib

/-!
Shallow embedding of the AutoSEO backend (`backend/main.py`) for claim
verification.  The embedded core is: the `sites` table row, the
create-job endpoint (`generate_site`), the background generation job
(`process_site_generation`), the read endpoints (`get_site`,
`list_sites`) and the dashboard aggregates (`get_dashboard`).

Conventions of the embedding:
* machine timestamps (`datetime.now()`, `datetime.utcnow()`) are supplied
  as explicit parameters, since they are environment inputs;
* the OpenAI call is an external collaborator: its outcome (returned text
  or raised exception) is supplied as a `GenResult` parameter;
* strings are treated at the level of Unicode code points; the
  Python string methods used by the source (`str.title`, `str.split`,
  `str.replace`) are modelled for ASCII text.
-/

namespace AutoSEO

/-- Site lifecycle status, column `sites.status` (a plain string in the
source, taking the four values below). -/
inductive Status where
  | pending
  | generating
  | deployed
  | failed
deriving DecidableEq, Repr

/-- Values stored in the free-form JSON `analytics` column: the source
stores strings (error text, ISO timestamps) and integers (word counts). -/
inductive AnalyticsVal where
  | str (v : String)
  | num (v : Nat)
deriving DecidableEq, Repr

/-- The `sites` table row (SQLAlchemy model `Site` in `main.py`).
`updated_at` (maintained by the ORM `onupdate` hook on every write) is
omitted: it carries no logic visible to any endpoint. -/
structure Site where
  id : Nat
  domain : String
  title : String
  keyword : String
  content : Option String := none
  meta_description : Option String := none
  meta_tags : Option String := none
  cloud_provider : String
  cloud_url : Option String := none
  status : Status := Status.pending
  created_at : Nat
  seo_score : Int := 0
  analytics : List (String × AnalyticsVal) := []
deriving DecidableEq, Repr

/-- The persisted table of sites plus the autoincrement counter for the
integer primary key. -/
structure Store where
  nextId : Nat
  sites : List Site
deriving DecidableEq, Repr

/-- A database with no rows yet; Postgres sequences start at 1. -/
def emptyStore : Store := ⟨1, []⟩

/-- Request body of `POST /api/sites/generate` (`SiteGenerateRequest`),
with the source's defaults. -/
structure SiteGenerateRequest where
  keyword : String
  title : Option String := none
  language : String := "en"
  tone : String := "professional"
  word_count : Nat := 1500
  include_faq : Bool := true
  cloud_provider : String := "aws"
  custom_domain : Option String := none
deriving DecidableEq, Repr

/-- Pydantic validation on the request: `keyword` has
`min_length=2, max_length=100` (lengths in characters). -/
def validRequest (req : SiteGenerateRequest) : Prop :=
  2 ≤ req.keyword.length ∧ req.keyword.length ≤ 100

instance (req : SiteGenerateRequest) : Decidable (validRequest req) := by
  unfold validRequest; infer_instance

/-- Python `a or b` for an optional string `a`: `None` and the empty
string are falsy, any other string is returned as-is. -/
def pyOrStr (a : Option String) (b : String) : String :=
  match a with
  | some s => if s = "" then b else s
  | none => b

/-- Python `s.replace(' ', '-')` (every space becomes a hyphen). -/
def replaceSpaces (s : String) : String :=
  String.mk (s.toList.map (fun c => if c = ' ' then '-' else c))

/-- Domain chosen by `generate_site`:
`request.custom_domain or f"{keyword.replace(' ', '-')}-{HHMMSS}.auto-seo.app"`,
with `HHMMSS` the wall-clock `datetime.now().strftime('%H%M%S')`. -/
def deriveDomain (req : SiteGenerateRequest) (hhmmss : String) : String :=
  pyOrStr req.custom_domain
    (replaceSpaces req.keyword ++ "-" ++ hhmmss ++ ".auto-seo.app")

/-- The row inserted by `generate_site`: only the listed columns are
given; the rest keep their column defaults. -/
def createSite (req : SiteGenerateRequest) (hhmmss : String) (now : Nat)
    (id : Nat) : Site :=
  { id := id
    domain := deriveDomain req hhmmss
    title := pyOrStr req.title req.keyword
    keyword := req.keyword
    cloud_provider := req.cloud_provider
    status := Status.pending
    created_at := now }

/-- `POST /api/sites/generate`: insert the new row (id assigned by the
sequence) and return it; the generation job for this id is scheduled as a
background task. -/
def generate_site (store : Store) (req : SiteGenerateRequest)
    (hhmmss : String) (now : Nat) : Store × Site :=
  let site := createSite req hhmmss now store.nextId
  (⟨store.nextId + 1, store.sites ++ [site]⟩, site)

/-- `SELECT ... WHERE Site.id == site_id` followed by `scalar_one_or_none`. -/
def lookupSite (store : Store) (id : Nat) : Option Site :=
  store.sites.find? (fun s => s.id = id)

/-- Whole-row update of the row with the given id (the ORM commit of the
mutated `site` object). -/
def updateSite (store : Store) (id : Nat) (f : Site → Site) : Store :=
  ⟨store.nextId, store.sites.map (fun s => if s.id = id then f s else s)⟩

/-- Result of an API route: the returned value or an `HTTPException`. -/
inductive ApiResult (α : Type) where
  | ok (v : α)
  | httpError (code : Nat) (detail : String)
deriving DecidableEq, Repr

/-- `GET /api/sites/{site_id}`: the row, or a 404 when no row matches. -/
def get_site (store : Store) (site_id : Nat) : ApiResult Site :=
  match lookupSite store site_id with
  | none => ApiResult.httpError 404 "Site not found"
  | some site => ApiResult.ok site

/-- `GET /api/sites`: every row, ordered by `created_at` descending. -/
def list_sites (store : Store) : List Site :=
  store.sites.mergeSort (fun a b => decide (b.created_at ≤ a.created_at))

/-- Core of Python `str.title()` for ASCII text: a letter that follows a
letter is lowercased, any other letter is uppercased; the Boolean carries
whether the previous character was a letter (a "cased" character). -/
def pyTitleGo : List Char → Bool → List Char
  | [], _ => []
  | c :: cs, prevCased =>
    if c.isAlpha then
      (if prevCased then c.toLower else c.toUpper) :: pyTitleGo cs true
    else
      c :: pyTitleGo cs false

/-- Python `s.title()` (ASCII): `"hello world".title() = "Hello World"`. -/
def pyTitle (s : String) : String :=
  String.mk (pyTitleGo s.toList false)

/-- One character of `s.replace(chr(10), '<br>')`: a newline expands to
the four characters of `<br>`, everything else is kept. -/
def expandNl (c : Char) : List Char :=
  if c = '\n' then ['<', 'b', 'r', '>'] else [c]

/-- Python `content_text.replace(chr(10), '<br>')`. -/
def pyReplaceNl (s : String) : String :=
  String.mk (List.flatten (s.toList.map expandNl))

/-- Python `s.split()` (no separator): split on runs of whitespace,
dropping empty pieces; `len(s.split())` is the source's word count. -/
def pySplitWs (s : String) : List String :=
  (s.split Char.isWhitespace).filter (fun w => w ≠ "")

/-- The f-string HTML document built by `process_site_generation`
(source lines 182–204): title and `<h1>` hold `keyword.title()`, the meta
description holds the raw keyword, the content `<div>` holds the
generated text with newlines turned into `<br>`, and the footer holds the
current year. -/
def renderSite (keyword content_text : String) (year : Nat) : String :=
  "\n<!DOCTYPE html>\n<html>\n<head>\n    <title>" ++ pyTitle keyword ++
  "</title>\n    <meta name=\"description\" content=\"Comprehensive guide about " ++
  keyword ++
  "\">\n    <style>\n        body \x7b font-family: Arial, sans-serif; max-width: 800px; margin: 0 auto; padding: 20px; line-height: 1.6; \x7d\n        h1 \x7b color: #333; \x7d\n        .content \x7b margin-top: 20px; \x7d\n    </style>\n</head>\n<body>\n    <h1>" ++
  pyTitle keyword ++
  "</h1>\n    <div class=\"content\">\n        " ++
  pyReplaceNl content_text ++
  "\n    </div>\n    <footer style=\"margin-top: 40px; color: #666; font-size: 0.9em;\">\n        <p>&copy; " ++
  toString year ++
  " - Generated by AutoSEO</p>\n    </footer>\n</body>\n</html>\n            "

/-- Everything of the rendered document that precedes the embedded
generated text. -/
def htmlPre (keyword : String) : String :=
  "\n<!DOCTYPE html>\n<html>\n<head>\n    <title>" ++ pyTitle keyword ++
  "</title>\n    <meta name=\"description\" content=\"Comprehensive guide about " ++
  keyword ++
  "\">\n    <style>\n        body \x7b font-family: Arial, sans-serif; max-width: 800px; margin: 0 auto; padding: 20px; line-height: 1.6; \x7d\n        h1 \x7b color: #333; \x7d\n        .content \x7b margin-top: 20px; \x7d\n    </style>\n</head>\n<body>\n    <h1>" ++
  pyTitle keyword ++
  "</h1>\n    <div class=\"content\">\n        "

/-- Everything of the rendered document that follows the embedded
generated text. -/
def htmlSuf (year : Nat) : String :=
  "\n    </div>\n    <footer style=\"margin-top: 40px; color: #666; font-size: 0.9em;\">\n        <p>&copy; " ++
  toString year ++
  " - Generated by AutoSEO</p>\n    </footer>\n</body>\n</html>\n            "

/-- Outcome of the OpenAI chat-completions call made by the job: the
returned message text, or the message of the raised exception. -/
inductive GenResult where
  | ok (text : String)
  | err (msg : String)
deriving DecidableEq, Repr

/-- The job's first write: `site.status = "generating"` then commit. -/
def startSite (s : Site) : Site :=
  { s with status := Status.generating }

/-- The status the job's second write stores: `deployed` when the
generator returned text, `failed` when it raised. -/
def finalStatus : GenResult → Status
  | GenResult.ok _ => Status.deployed
  | GenResult.err _ => Status.failed

/-- The job's second write.  Success path (source lines 207–216): the
rendered HTML, the fabricated deployment URL, status `deployed`, the
hardcoded score 85, and analytics with word count and completion time.
Failure path (lines 218–221): status `failed` and analytics holding the
exception text; no other column is touched. -/
def finishSite (req : SiteGenerateRequest) (gen : GenResult) (year : Nat)
    (deploy_time : String) (site_id : Nat) (s : Site) : Site :=
  match gen with
  | GenResult.ok text =>
    { s with
      content := some (renderSite req.keyword text year)
      cloud_url := some ("https://demo.autoseo.app/site/" ++ toString site_id)
      status := Status.deployed
      seo_score := 85
      analytics := [("word_count", AnalyticsVal.num (pySplitWs text).length),
                    ("deployment_time", AnalyticsVal.str deploy_time)] }
  | GenResult.err msg =>
    { s with
      status := Status.failed
      analytics := [("error", AnalyticsVal.str msg)] }

/-- The background task `process_site_generation`.  `scalar_one()` raises
when no row has the given id: the task dies before any write, leaving the
store unchanged (flag `false`).  Otherwise the job commits the
`generating` status and then commits the outcome of the generator call
(flag `true`).  There is no retry path. -/
def process_site_generation (store : Store) (site_id : Nat)
    (req : SiteGenerateRequest) (gen : GenResult) (year : Nat)
    (deploy_time : String) : Store × Bool :=
  match lookupSite store site_id with
  | none => (store, false)
  | some _ =>
    (updateSite (updateSite store site_id startSite) site_id
      (finishSite req gen year deploy_time site_id), true)

/-- Round an exact rational to the nearest integer, ties to even — the
rounding Python's `round` applies to the `Decimal` value coming back from
the SQL `AVG`. -/
def halfEvenRound (q : Rat) : Int :=
  if q - (⌊q⌋ : Rat) < (1 : Rat) / 2 then ⌊q⌋
  else if (1 : Rat) / 2 < q - (⌊q⌋ : Rat) then ⌊q⌋ + 1
  else if ⌊q⌋ % 2 = 0 then ⌊q⌋ else ⌊q⌋ + 1

/-- Python `round(x, 1)`: round to one decimal place, ties to even. -/
def pyRound1 (q : Rat) : Rat :=
  (halfEvenRound (q * 10) : Rat) / 10

/-- The `overview` object of `GET /api/analytics/dashboard`. -/
structure DashboardOverview where
  total_sites : Nat
  deployed_sites : Nat
  average_seo_score : Rat
deriving DecidableEq, Repr

/-- One entry of the dashboard's `recent_sites` list. -/
structure RecentSite where
  id : Nat
  domain : String
  status : Status
  created_at : Nat
deriving DecidableEq, Repr

/-- Response of `GET /api/analytics/dashboard`. -/
structure Dashboard where
  overview : DashboardOverview
  recent_sites : List RecentSite
deriving DecidableEq, Repr

/-- `GET /api/analytics/dashboard`.  `AVG(seo_score) WHERE status =
'deployed'` is `NULL` (here `none`) when no row qualifies; the source
computes `round(avg_score.scalar() or 0, 1)`.  Python's `or` also maps a
zero average to the integer `0`, but `round(0, 1) = 0 = round(Decimal(0),
1)` as a number, so `Option.getD 0` gives the same value. -/
def get_dashboard (store : Store) : Dashboard :=
  let deployedRows := store.sites.filter (fun s => decide (s.status = Status.deployed))
  let avgScore : Option Rat :=
    match deployedRows with
    | [] => none
    | _ => some (((deployedRows.map (fun s => s.seo_score)).sum : Rat) /
                 (deployedRows.length : Rat))
  let recent :=
    (store.sites.mergeSort (fun a b => decide (b.created_at ≤ a.created_at))).take 5
  { overview :=
      { total_sites := store.sites.length
        deployed_sites := deployedRows.length
        average_seo_score := pyRound1 (avgScore.getD 0) }
    recent_sites := recent.map (fun s => ⟨s.id, s.domain, s.status, s.created_at⟩) }

/-- Scheduling state of a record's background job: FastAPI's
`BackgroundTasks` runs each task handed to `add_task` exactly once, so a
job is scheduled (task queued, not yet running), started (past its first
commit) or done (past its second commit). -/
inductive JobPhase where
  | scheduled
  | started
  | done
deriving DecidableEq, Repr

/-- One record of the running system: the stored row, its job's phase,
and the (ghost) history of every status value the row has held. -/
structure SysRec where
  site : Site
  phase : JobPhase
  hist : List Status
deriving DecidableEq, Repr

/-- Whole-system state: the autoincrement counter and the records. -/
structure SysState where
  nextId : Nat
  recs : List SysRec
deriving DecidableEq, Repr

/-- The store the records project to. -/
def SysState.store (s : SysState) : Store :=
  ⟨s.nextId, s.recs.map (fun r => r.site)⟩

/-- System start: empty table, sequence at 1, no job scheduled. -/
def initState : SysState := ⟨1, []⟩

/-- Effect of the job's first write on its record: commit
`status = "generating"`; the history records the status now stored. -/
def startRec (r : SysRec) : SysRec :=
  ⟨startSite r.site, JobPhase.started, r.hist ++ [(startSite r.site).status]⟩

/-- Effect of the job's second write on its record; the history records
the status now stored. -/
def finishRec (req : SiteGenerateRequest) (gen : GenResult) (year : Nat)
    (deploy_time : String) (site_id : Nat) (r : SysRec) : SysRec :=
  ⟨finishSite req gen year deploy_time site_id r.site, JobPhase.done,
   r.hist ++ [(finishSite req gen year deploy_time site_id r.site).status]⟩

/-- Apply `f` to the record whose row has the given id. -/
def updRec (recs : List SysRec) (id : Nat) (f : SysRec → SysRec) : List SysRec :=
  recs.map (fun r => if r.site.id = id then f r else r)

/-- The operations that touch the table, as a transition relation:
`create` is the `POST /api/sites/generate` insert (which schedules the
row's job), `jobStart` and `jobFinish` are the two commits of that row's
`process_site_generation` task.  A job starts only while scheduled and
finishes only while started, because `BackgroundTasks` runs the task once
and the task body is straight-line code. -/
inductive Step : SysState → SysState → Prop where
  | create (s : SysState) (req : SiteGenerateRequest) (hhmmss : String)
      (now : Nat) (h : validRequest req) :
      Step s ⟨s.nextId + 1,
        s.recs ++ [⟨createSite req hhmmss now s.nextId, JobPhase.scheduled,
          [(createSite req hhmmss now s.nextId).status]⟩]⟩
  | jobStart (s : SysState) (id : Nat) (r0 : SysRec) (h0 : r0 ∈ s.recs)
      (hid : r0.site.id = id) (hph : r0.phase = JobPhase.scheduled) :
      Step s ⟨s.nextId, updRec s.recs id startRec⟩
  | jobFinish (s : SysState) (id : Nat) (req : SiteGenerateRequest)
      (gen : GenResult) (year : Nat) (deploy_time : String) (r0 : SysRec)
      (h0 : r0 ∈ s.recs) (hid : r0.site.id = id)
      (hph : r0.phase = JobPhase.started) :
      Step s ⟨s.nextId, updRec s.recs id (finishRec req gen year deploy_time id)⟩

/-- States the system can be in after any interleaving of operations. -/
inductive Reachable : SysState → Prop where
  | init : Reachable initState
  | step (s s' : SysState) : Reachable s → Step s s' → Reachable s'

/-- Status histories that are prefixes of the lifecycle chain
pending → generating → (deployed | failed). -/
def chainHist (h : List Status) : Prop :=
  h = [Status.pending] ∨
  h = [Status.pending, Status.generating] ∨
  h = [Status.pending, Status.generating, Status.deployed] ∨
  h = [Status.pending, Status.generating, Status.failed]

/-- What a job phase says about its record's status history. -/
def phaseHist : JobPhase → List Status → Prop
  | JobPhase.scheduled, h => h = [Status.pending]
  | JobPhase.started, h => h = [Status.pending, Status.generating]
  | JobPhase.done, h =>
      h = [Status.pending, Status.generating, Status.deployed] ∨
      h = [Status.pending, Status.generating, Status.failed]

/-- Per-record inductive invariant: the history matches the job phase and
ends at the currently stored status. -/
def RecInv (r : SysRec) : Prop :=
  phaseHist r.phase r.hist ∧ r.hist.getLast? = some r.site.status

/-- System invariant: every record satisfies `RecInv`, ids are below the
sequence counter, and ids are pairwise distinct. -/
def Inv (s : SysState) : Prop :=
  (∀ r ∈ s.recs, RecInv r ∧ r.site.id < s.nextId) ∧
  (s.recs.map (fun r => r.site.id)).Nodup

/-- Does the character list start with the pattern? -/
def startsWithL : List Char → List Char → Bool
  | _, [] => true
  | [], _ :: _ => false
  | a :: as, b :: bs => a == b && startsWithL as bs

/-- Does the character list contain the pattern as a contiguous run? -/
def subOcc : List Char → List Char → Bool
  | [], pat => pat.isEmpty
  | a :: tl, pat => startsWithL (a :: tl) pat || subOcc tl pat

/-- Substring test on strings (code-point level). -/
def containsSub (s pat : String) : Bool :=
  subOcc s.toList pat.toList

/-- Drop everything up to and including the first occurrence of `pat`. -/
def dropThru (pat : List Char) : List Char → List Char
  | [] => []
  | a :: tl =>
    if startsWithL (a :: tl) pat then (a :: tl).drop pat.length
    else dropThru pat tl

/-- Take everything strictly before the first occurrence of `pat`. -/
def takeUpTo (pat : List Char) : List Char → List Char
  | [] => []
  | a :: tl =>
    if startsWithL (a :: tl) pat then [] else a :: takeUpTo pat tl

/-- The text of the document's `<title>` element. -/
def titleContent (html : String) : String :=
  String.mk (takeUpTo ("</title>".toList) (dropThru ("<title>".toList) html.toList))

/-- Fixed request used to instantiate the universally quantified claims
on a concrete input. -/
def wReq : SiteGenerateRequest := { keyword := "seo tools" }

/-- The store after creating one site from `wReq` (id 1). -/
def wStore : Store := (generate_site emptyStore wReq "103000" 1111).1

/-- The row `generate_site` returns for `wReq`. -/
def wSite : Site := (generate_site emptyStore wReq "103000" 1111).2

/-- System state after creating one site from `wReq`. -/
def wSysCreate : SysState :=
  ⟨2, [⟨createSite wReq "103000" 1111 1, JobPhase.scheduled,
    [(createSite wReq "103000" 1111 1).status]⟩]⟩

/-- System state after the job's first write for id 1. -/
def wSysStart : SysState := ⟨2, updRec wSysCreate.recs 1 startRec⟩

/-- System state after the job's second (successful) write for id 1. -/
def wSysDone : SysState :=
  ⟨2, updRec wSysStart.recs 1
    (finishRec wReq (GenResult.ok "Hello world") 2025 "2025-06-01T12:00:00" 1)⟩

/-- The single record of `wSysDone`. -/
def wDoneRec : SysRec :=
  finishRec wReq (GenResult.ok "Hello world") 2025 "2025-06-01T12:00:00" 1
    (startRec ⟨createSite wReq "103000" 1111 1, JobPhase.scheduled,
      [(createSite wReq "103000" 1111 1).status]⟩)

/-!  Supporting lemmas about the row operations. -/

theorem halfEvenRound_int (z : Int) : halfEvenRound (z : Rat) = z := by
  simp [halfEvenRound]

theorem pyRound1_int (z : Int) : pyRound1 (z : Rat) = (z : Rat) := by
  have h : ((z : Rat) * 10) = ((z * 10 : Int) : Rat) := by push_cast; ring
  rw [pyRound1, h, halfEvenRound_int]
  push_cast
  ring

theorem flatten_expandNl_id (l : List Char) (h : ∀ c ∈ l, c ≠ '\n') :
    List.flatten (l.map expandNl) = l := by
  induction l with
  | nil => rfl
  | cons a tl ih =>
    simp only [List.map_cons, List.flatten_cons]
    rw [ih (fun c hc => h c (List.mem_cons_of_mem a hc))]
    simp [expandNl, h a (List.mem_cons_self a tl)]

theorem pyReplaceNl_no_newline (t : String) (h : ∀ c ∈ t.toList, c ≠ '\n') :
    pyReplaceNl t = t := by
  rw [pyReplaceNl, flatten_expandNl_id t.toList h]
  rfl

theorem renderSite_decomp (k t : String) (y : Nat) :
    renderSite k t y = htmlPre k ++ pyReplaceNl t ++ htmlSuf y := by
  simp only [renderSite, htmlPre, htmlSuf, String.append_assoc]

theorem subOcc_nil_pat (l : List Char) : subOcc l [] = true := by
  cases l <;> simp [subOcc, startsWithL]

theorem startsWithL_self (p r : List Char) : startsWithL (p ++ r) p = true := by
  induction p with
  | nil => cases r <;> rfl
  | cons a as ih => simp [startsWithL, ih]

theorem subOcc_append_pat (x p r : List Char) : subOcc (x ++ (p ++ r)) p = true := by
  induction x with
  | nil =>
    cases p with
    | nil => simp [subOcc_nil_pat]
    | cons b bs =>
      have hs := startsWithL_self (b :: bs) r
      simp only [List.cons_append] at hs
      simp only [List.nil_append, List.cons_append, subOcc]
      show (startsWithL (b :: (bs ++ r)) (b :: bs)
        || subOcc (bs ++ r) (b :: bs)) = true
      rw [hs]
      simp
  | cons a tl ih => simp [subOcc, ih]

theorem containsSub_middle (a b c : String) : containsSub (a ++ b ++ c) b = true := by
  rw [containsSub]
  have h : (a ++ b ++ c).toList = a.toList ++ (b.toList ++ c.toList) := by
    simp [String.toList, String.data_append]
  rw [h]
  exact subOcc_append_pat _ _ _

theorem startSite_id (s : Site) : (startSite s).id = s.id := rfl

theorem finishSite_id (req : SiteGenerateRequest) (gen : GenResult) (year : Nat)
    (deploy_time : String) (site_id : Nat) (s : Site) :
    (finishSite req gen year deploy_time site_id s).id = s.id := by
  cases gen <;> rfl

theorem finishSite_status (req : SiteGenerateRequest) (gen : GenResult) (year : Nat)
    (deploy_time : String) (site_id : Nat) (s : Site) :
    (finishSite req gen year deploy_time site_id s).status = finalStatus gen := by
  cases gen <;> rfl

theorem lookupSite_updateSite_self (store : Store) (id : Nat) (f : Site → Site)
    (hf : ∀ s, (f s).id = s.id) :
    lookupSite (updateSite store id f) id = (lookupSite store id).map f := by
  unfold lookupSite updateSite
  induction store.sites with
  | nil => rfl
  | cons a tl ih =>
    by_cases h : a.id = id
    · simp [List.find?, h, hf]
    · simp only [List.map_cons, List.find?]
      simp [h, ih]

end AutoSEO

namespace AutoSEO

/-- C8: invoking the generation job with an id that has no row makes the
initial load (`scalar_one`) raise: the task dies before its first write,
so the store is unchanged — no record is created or mutated, none is
marked failed, and nothing retries. -/
theorem C8_missing_record_fatal (store : Store) (site_id : Nat)
    (req : SiteGenerateRequest) (gen : GenResult) (year : Nat)
    (deploy_time : String) (h : lookupSite store site_id = none) :
    process_site_generation store site_id req gen year deploy_time = (store, false) := by
  unfold process_site_generation
  rw [h]

/-- Witness for C8 at a concrete input: the store holds one row with
id 1, and the job is invoked for the absent id 7. -/
theorem C8_missing_record_fatal_witness :
    process_site_generation wStore 7 wReq (GenResult.err "boom") 2025 "t"
      = (wStore, false) :=
  C8_missing_record_fatal wStore 7 wReq (GenResult.err "boom") 2025 "t" (by decide)

/-- C7: `GET /api/sites/{id}` returns the 404 detail `"Site not found"`
exactly when no row has the requested id, and returns the stored row
itself for every present id. -/
theorem C7_get_site_lookup (store : Store) (site_id : Nat) :
    (lookupSite store site_id = none →
      get_site store site_id = ApiResult.httpError 404 "Site not found") ∧
    (∀ site, lookupSite store site_id = some site →
      get_site store site_id = ApiResult.ok site) := by
  constructor
  · intro h
    unfold get_site
    rw [h]
  · intro site h
    unfold get_site
    rw [h]

/-- Witness for C7: id 9 is absent from the one-row store and yields the
404; id 1 is present and yields the stored row. -/
theorem C7_get_site_lookup_witness :
    get_site wStore 9 = ApiResult.httpError 404 "Site not found" ∧
    get_site wStore 1 = ApiResult.ok wSite :=
  ⟨(C7_get_site_lookup wStore 9).1 (by decide),
   (C7_get_site_lookup wStore 1).2 wSite (by decide)⟩

/-- C6: for every valid request (keyword of 2–100 characters), the
create-job endpoint returns a row whose status is `pending` and whose
domain is non-empty — the custom domain when one is supplied and truthy,
otherwise the keyword-and-timestamp-derived domain, which always ends in
`".auto-seo.app"`. -/
theorem C6_create_pending_nonempty_domain (store : Store)
    (req : SiteGenerateRequest) (hhmmss : String) (now : Nat)
    (h : validRequest req) :
    (generate_site store req hhmmss now).2.status = Status.pending ∧
    (generate_site store req hhmmss now).2.domain ≠ "" := by
  refine ⟨rfl, ?_⟩
  show deriveDomain req hhmmss ≠ ""
  unfold deriveDomain pyOrStr
  have hder : (replaceSpaces req.keyword ++ "-" ++ hhmmss ++ ".auto-seo.app") ≠ "" := by
    intro heq
    have hlen := congrArg String.length heq
    simp [String.length_append] at hlen
    exact absurd hlen.2 (by decide)
  cases hc : req.custom_domain with
  | none => exact hder
  | some d =>
    by_cases hd : d = ""
    · simpa [hd] using hder
    · simp only [if_neg hd]
      exact hd

/-- Witness for C6 at the concrete request `wReq` (keyword
`"seo tools"`, 9 characters, no custom domain). -/
theorem C6_create_pending_nonempty_domain_witness :
    (generate_site emptyStore wReq "103000" 1111).2.status = Status.pending ∧
    (generate_site emptyStore wReq "103000" 1111).2.domain ≠ "" :=
  C6_create_pending_nonempty_domain emptyStore wReq "103000" 1111 (by decide)

/-- C2: when the generator call raises (exception text `msg`) after the
record was set to `generating`, the job completes its single pass (no
retry) and the stored row has status `failed`, analytics exactly
`{error: msg}`, and a `content` column unchanged from before the job —
in particular still empty when it was empty, with no partial content. -/
theorem C2_generator_error_persists_failed (store : Store) (site_id : Nat)
    (req : SiteGenerateRequest) (msg : String) (year : Nat)
    (deploy_time : String) (site : Site)
    (h : lookupSite store site_id = some site) :
    (process_site_generation store site_id req (GenResult.err msg) year deploy_time).2
      = true ∧
    ∃ site',
      lookupSite
        (process_site_generation store site_id req (GenResult.err msg) year
          deploy_time).1 site_id = some site' ∧
      site'.status = Status.failed ∧
      site'.analytics = [("error", AnalyticsVal.str msg)] ∧
      site'.content = site.content := by
  unfold process_site_generation
  rw [h]
  refine ⟨rfl, ?_⟩
  have h1 : lookupSite (updateSite store site_id startSite) site_id
      = some (startSite site) := by
    rw [lookupSite_updateSite_self store site_id startSite startSite_id, h]
    rfl
  have h2 : lookupSite
      (updateSite (updateSite store site_id startSite) site_id
        (finishSite req (GenResult.err msg) year deploy_time site_id)) site_id
      = some (finishSite req (GenResult.err msg) year deploy_time site_id
          (startSite site)) := by
    rw [lookupSite_updateSite_self _ site_id _
      (finishSite_id req (GenResult.err msg) year deploy_time site_id), h1]
    rfl
  exact ⟨finishSite req (GenResult.err msg) year deploy_time site_id
    (startSite site), h2, rfl, rfl, rfl⟩

/-- Witness for C2: the one-row store, its row id 1, generator raising
`"APIError"`. -/
theorem C2_generator_error_persists_failed_witness :
    (process_site_generation wStore 1 wReq (GenResult.err "APIError") 2025 "t").2
      = true ∧
    ∃ site',
      lookupSite
        (process_site_generation wStore 1 wReq (GenResult.err "APIError") 2025
          "t").1 1 = some site' ∧
      site'.status = Status.failed ∧
      site'.analytics = [("error", AnalyticsVal.str "APIError")] ∧
      site'.content = wSite.content :=
  C2_generator_error_persists_failed wStore 1 wReq "APIError" 2025 "t" wSite
    (by decide)

/-- C3: when the generator returns `text`, the job persists the rendered
HTML document as `content`, the deployment URL
`https://demo.autoseo.app/site/{id}` derived from the record id, status
`deployed`, the constant score 85, and analytics holding the word count
of `text` and the completion timestamp. -/
theorem C3_success_persists_deployed (store : Store) (site_id : Nat)
    (req : SiteGenerateRequest) (text : String) (year : Nat)
    (deploy_time : String) (site : Site)
    (h : lookupSite store site_id = some site) :
    (process_site_generation store site_id req (GenResult.ok text) year deploy_time).2
      = true ∧
    ∃ site',
      lookupSite
        (process_site_generation store site_id req (GenResult.ok text) year
          deploy_time).1 site_id = some site' ∧
      site'.content = some (renderSite req.keyword text year) ∧
      site'.cloud_url = some ("https://demo.autoseo.app/site/" ++ toString site_id) ∧
      site'.status = Status.deployed ∧
      site'.seo_score = 85 ∧
      site'.analytics =
        [("word_count", AnalyticsVal.num (pySplitWs text).length),
         ("deployment_time", AnalyticsVal.str deploy_time)] := by
  unfold process_site_generation
  rw [h]
  refine ⟨rfl, ?_⟩
  have h1 : lookupSite (updateSite store site_id startSite) site_id
      = some (startSite site) := by
    rw [lookupSite_updateSite_self store site_id startSite startSite_id, h]
    rfl
  have h2 : lookupSite
      (updateSite (updateSite store site_id startSite) site_id
        (finishSite req (GenResult.ok text) year deploy_time site_id)) site_id
      = some (finishSite req (GenResult.ok text) year deploy_time site_id
          (startSite site)) := by
    rw [lookupSite_updateSite_self _ site_id _
      (finishSite_id req (GenResult.ok text) year deploy_time site_id), h1]
    rfl
  exact ⟨finishSite req (GenResult.ok text) year deploy_time site_id
    (startSite site), h2, rfl, rfl, rfl, rfl, rfl⟩

/-- Witness for C3: the one-row store, its row id 1, generator returning
`"Hello world"`. -/
theorem C3_success_persists_deployed_witness :
    (process_site_generation wStore 1 wReq (GenResult.ok "Hello world") 2025
      "2025-06-01T12:00:00").2 = true ∧
    ∃ site',
      lookupSite
        (process_site_generation wStore 1 wReq (GenResult.ok "Hello world") 2025
          "2025-06-01T12:00:00").1 1 = some site' ∧
      site'.content = some (renderSite wReq.keyword "Hello world" 2025) ∧
      site'.cloud_url = some ("https://demo.autoseo.app/site/" ++ toString 1) ∧
      site'.status = Status.deployed ∧
      site'.seo_score = 85 ∧
      site'.analytics =
        [("word_count", AnalyticsVal.num (pySplitWs "Hello world").length),
         ("deployment_time", AnalyticsVal.str "2025-06-01T12:00:00")] :=
  C3_success_persists_deployed wStore 1 wReq "Hello world" 2025
    "2025-06-01T12:00:00" wSite (by decide)

/-- C5: with exactly three stored rows — deployed with score 80,
deployed with score 90, and failed — the dashboard overview reports 3
total sites, 2 deployed sites, and an average score of 85 taken over the
deployed rows only. -/
theorem C5_dashboard_aggregates (n : Nat) (s1 s2 s3 : Site)
    (h1 : s1.status = Status.deployed) (h1s : s1.seo_score = 80)
    (h2 : s2.status = Status.deployed) (h2s : s2.seo_score = 90)
    (h3 : s3.status = Status.failed) :
    (get_dashboard ⟨n, [s1, s2, s3]⟩).overview.total_sites = 3 ∧
    (get_dashboard ⟨n, [s1, s2, s3]⟩).overview.deployed_sites = 2 ∧
    (get_dashboard ⟨n, [s1, s2, s3]⟩).overview.average_seo_score = 85 := by
  have hfil : List.filter (fun s => decide (s.status = Status.deployed)) [s1, s2, s3]
      = [s1, s2] := by
    simp [List.filter_cons, h1, h2, h3]
  unfold get_dashboard
  simp only [hfil]
  refine ⟨rfl, rfl, ?_⟩
  have harg : ((List.map (fun s => s.seo_score) [s1, s2]).sum : Rat)
      / (([s1, s2].length : Nat) : Rat) = ((85 : Int) : Rat) := by
    simp [h1s, h2s]
    norm_num
  simp only [Option.getD_some]
  rw [harg, pyRound1_int]
  norm_num

/-- Witness for C5 on three concrete rows. -/
theorem C5_dashboard_aggregates_witness :
    (get_dashboard ⟨4,
      [{ id := 1, domain := "a", title := "a", keyword := "a",
         cloud_provider := "aws", status := Status.deployed, created_at := 10,
         seo_score := 80 },
       { id := 2, domain := "b", title := "b", keyword := "b",
         cloud_provider := "aws", status := Status.deployed, created_at := 11,
         seo_score := 90 },
       { id := 3, domain := "c", title := "c", keyword := "c",
         cloud_provider := "aws", status := Status.failed, created_at := 12,
         seo_score := 0 }]⟩).overview.total_sites = 3 ∧
    (get_dashboard ⟨4,
      [{ id := 1, domain := "a", title := "a", keyword := "a",
         cloud_provider := "aws", status := Status.deployed, created_at := 10,
         seo_score := 80 },
       { id := 2, domain := "b", title := "b", keyword := "b",
         cloud_provider := "aws", status := Status.deployed, created_at := 11,
         seo_score := 90 },
       { id := 3, domain := "c", title := "c", keyword := "c",
         cloud_provider := "aws", status := Status.failed, created_at := 12,
         seo_score := 0 }]⟩).overview.deployed_sites = 2 ∧
    (get_dashboard ⟨4,
      [{ id := 1, domain := "a", title := "a", keyword := "a",
         cloud_provider := "aws", status := Status.deployed, created_at := 10,
         seo_score := 80 },
       { id := 2, domain := "b", title := "b", keyword := "b",
         cloud_provider := "aws", status := Status.deployed, created_at := 11,
         seo_score := 90 },
       { id := 3, domain := "c", title := "c", keyword := "c",
         cloud_provider := "aws", status := Status.failed, created_at := 12,
         seo_score := 0 }]⟩).overview.average_seo_score = 85 :=
  C5_dashboard_aggregates 4 _ _ _ rfl rfl rfl rfl rfl

/-- C10: when no stored row has status `deployed`, the dashboard still
answers: the `NULL` average is coerced to 0 by `or 0`, so the overview
reports `average_seo_score = 0` (and 0 deployed sites) instead of
failing or returning null. -/
theorem C10_dashboard_empty_average (store : Store)
    (h : ∀ s ∈ store.sites, s.status ≠ Status.deployed) :
    (get_dashboard store).overview.average_seo_score = 0 ∧
    (get_dashboard store).overview.deployed_sites = 0 ∧
    (get_dashboard store).overview.total_sites = store.sites.length := by
  have hfil : store.sites.filter (fun s => decide (s.status = Status.deployed)) = [] := by
    rw [List.filter_eq_nil_iff]
    intro a ha
    simp [h a ha]
  unfold get_dashboard
  rw [hfil]
  refine ⟨?_, rfl, rfl⟩
  show pyRound1 (Option.getD none 0) = 0
  rw [show ((Option.getD none 0 : Rat)) = ((0 : Int) : Rat) by norm_num,
    pyRound1_int]
  norm_num

/-- Witness for C10: a store holding one failed row and one pending row. -/
theorem C10_dashboard_empty_average_witness :
    (get_dashboard ⟨3,
      [{ id := 1, domain := "a", title := "a", keyword := "a",
         cloud_provider := "aws", status := Status.failed, created_at := 10 },
       { id := 2, domain := "b", title := "b", keyword := "b",
         cloud_provider := "aws", status := Status.pending, created_at := 11 }]⟩
      ).overview.average_seo_score = 0 ∧
    (get_dashboard ⟨3,
      [{ id := 1, domain := "a", title := "a", keyword := "a",
         cloud_provider := "aws", status := Status.failed, created_at := 10 },
       { id := 2, domain := "b", title := "b", keyword := "b",
         cloud_provider := "aws", status := Status.pending, created_at := 11 }]⟩
      ).overview.deployed_sites = 0 ∧
    (get_dashboard ⟨3,
      [{ id := 1, domain := "a", title := "a", keyword := "a",
         cloud_provider := "aws", status := Status.failed, created_at := 10 },
       { id := 2, domain := "b", title := "b", keyword := "b",
         cloud_provider := "aws", status := Status.pending, created_at := 11 }]⟩
      ).overview.total_sites = 2 :=
  C10_dashboard_empty_average _ (by decide)

/-- C9: the renderer escapes nothing.  The document is exactly a fixed
frame around `text.replace(chr(10), '<br>')`, and on text without
newlines that transformation is the identity, so every HTML-significant
character of the generated text reaches the document verbatim. -/
theorem C9_renderer_no_escaping :
    (∀ (k t : String) (y : Nat),
      renderSite k t y = htmlPre k ++ pyReplaceNl t ++ htmlSuf y) ∧
    (∀ t : String, (∀ c ∈ t.toList, c ≠ '\n') → pyReplaceNl t = t) :=
  ⟨renderSite_decomp, pyReplaceNl_no_newline⟩

/-- Witness for C9: generated text carrying `<`, `>`, `&` and a quote is
embedded verbatim. -/
theorem C9_renderer_no_escaping_witness :
    renderSite "seo" "<script>&\"droptable\"</script>" 2024
      = htmlPre "seo" ++ pyReplaceNl "<script>&\"droptable\"</script>"
        ++ htmlSuf 2024 ∧
    pyReplaceNl "<script>&\"droptable\"</script>"
      = "<script>&\"droptable\"</script>" :=
  ⟨C9_renderer_no_escaping.1 "seo" "<script>&\"droptable\"</script>" 2024,
   C9_renderer_no_escaping.2 "<script>&\"droptable\"</script>" (by decide)⟩

/-- Counterexample to C4 as stated: with keyword `"hello world"` the
`<title>` element holds the title-cased `"Hello World"`, which does not
contain the keyword `"hello world"` itself. -/
theorem C4_counterexample :
    titleContent (renderSite "hello world" "Hello world" 2025) = "Hello World" ∧
    containsSub (titleContent (renderSite "hello world" "Hello world" 2025))
      "hello world" = false := by
  constructor
  · decide
  · decide

/-- C4 (amended): for every keyword, generated text and year, the
document contains the title-cased keyword inside its `<title>` element
and inside its `<h1>` heading, contains the generated text with newlines
converted to `<br>`, and contains a `&copy;` footer naming the year. -/
theorem C4_render_contains (k t : String) (y : Nat) :
    containsSub (renderSite k t y) ("<title>" ++ pyTitle k ++ "</title>") = true ∧
    containsSub (renderSite k t y) ("<h1>" ++ pyTitle k ++ "</h1>") = true ∧
    containsSub (renderSite k t y) (pyReplaceNl t) = true ∧
    containsSub (renderSite k t y) ("&copy; " ++ toString y) = true := by
  have hsp1 : ("\n<!DOCTYPE html>\n<html>\n<head>\n    <title>" : String)
      = "\n<!DOCTYPE html>\n<html>\n<head>\n    " ++ "<title>" := rfl
  have hsp2 : ("</title>\n    <meta name=\"description\" content=\"Comprehensive guide about " : String)
      = "</title>" ++ "\n    <meta name=\"description\" content=\"Comprehensive guide about " := rfl
  have hsp3 : ("\">\n    <style>\n        body \x7b font-family: Arial, sans-serif; max-width: 800px; margin: 0 auto; padding: 20px; line-height: 1.6; \x7d\n        h1 \x7b color: #333; \x7d\n        .content \x7b margin-top: 20px; \x7d\n    </style>\n</head>\n<body>\n    <h1>" : String)
      = "\">\n    <style>\n        body \x7b font-family: Arial, sans-serif; max-width: 800px; margin: 0 auto; padding: 20px; line-height: 1.6; \x7d\n        h1 \x7b color: #333; \x7d\n        .content \x7b margin-top: 20px; \x7d\n    </style>\n</head>\n<body>\n    " ++ "<h1>" := rfl
  have hsp4 : ("</h1>\n    <div class=\"content\">\n        " : String)
      = "</h1>" ++ "\n    <div class=\"content\">\n        " := rfl
  have hsp5 : ("\n    </div>\n    <footer style=\"margin-top: 40px; color: #666; font-size: 0.9em;\">\n        <p>&copy; " : String)
      = "\n    </div>\n    <footer style=\"margin-top: 40px; color: #666; font-size: 0.9em;\">\n        <p>" ++ "&copy; " := rfl
  refine ⟨?_, ?_, ?_, ?_⟩
  · have e : renderSite k t y =
        "\n<!DOCTYPE html>\n<html>\n<head>\n    " ++
        ("<title>" ++ pyTitle k ++ "</title>") ++
        ("\n    <meta name=\"description\" content=\"Comprehensive guide about " ++
         k ++
         "\">\n    <style>\n        body \x7b font-family: Arial, sans-serif; max-width: 800px; margin: 0 auto; padding: 20px; line-height: 1.6; \x7d\n        h1 \x7b color: #333; \x7d\n        .content \x7b margin-top: 20px; \x7d\n    </style>\n</head>\n<body>\n    <h1>" ++
         pyTitle k ++
         "</h1>\n    <div class=\"content\">\n        " ++
         pyReplaceNl t ++
         "\n    </div>\n    <footer style=\"margin-top: 40px; color: #666; font-size: 0.9em;\">\n        <p>&copy; " ++
         toString y ++
         " - Generated by AutoSEO</p>\n    </footer>\n</body>\n</html>\n            ") := by
      rw [renderSite, hsp1, hsp2]
      simp only [String.append_assoc]
    rw [e]
    exact containsSub_middle _ _ _
  · have e : renderSite k t y =
        ("\n<!DOCTYPE html>\n<html>\n<head>\n    <title>" ++ pyTitle k ++
         "</title>\n    <meta name=\"description\" content=\"Comprehensive guide about " ++
         k ++
         "\">\n    <style>\n        body \x7b font-family: Arial, sans-serif; max-width: 800px; margin: 0 auto; padding: 20px; line-height: 1.6; \x7d\n        h1 \x7b color: #333; \x7d\n        .content \x7b margin-top: 20px; \x7d\n    </style>\n</head>\n<body>\n    ") ++
        ("<h1>" ++ pyTitle k ++ "</h1>") ++
        ("\n    <div class=\"content\">\n        " ++
         pyReplaceNl t ++
         "\n    </div>\n    <footer style=\"margin-top: 40px; color: #666; font-size: 0.9em;\">\n        <p>&copy; " ++
         toString y ++
         " - Generated by AutoSEO</p>\n    </footer>\n</body>\n</html>\n            ") := by
      rw [renderSite, hsp3, hsp4]
      simp only [String.append_assoc]
    rw [e]
    exact containsSub_middle _ _ _
  · have e : renderSite k t y = htmlPre k ++ pyReplaceNl t ++ htmlSuf y :=
      renderSite_decomp k t y
    rw [e]
    exact containsSub_middle _ _ _
  · have e : renderSite k t y =
        (htmlPre k ++ pyReplaceNl t ++
         "\n    </div>\n    <footer style=\"margin-top: 40px; color: #666; font-size: 0.9em;\">\n        <p>") ++
        ("&copy; " ++ toString y) ++
        (" - Generated by AutoSEO</p>\n    </footer>\n</body>\n</html>\n            ") := by
      rw [renderSite, hsp5]
      simp only [htmlPre, String.append_assoc]
    rw [e]
    exact containsSub_middle _ _ _

theorem startRec_site_id (r : SysRec) : (startRec r).site.id = r.site.id := rfl

theorem finishRec_site_id (req : SiteGenerateRequest) (gen : GenResult)
    (year : Nat) (deploy_time : String) (site_id : Nat) (r : SysRec) :
    (finishRec req gen year deploy_time site_id r).site.id = r.site.id := by
  simp [finishRec, finishSite_id]

theorem updRec_map_id (recs : List SysRec) (id : Nat) (f : SysRec → SysRec)
    (hf : ∀ r, (f r).site.id = r.site.id) :
    (updRec recs id f).map (fun r => r.site.id)
      = recs.map (fun r => r.site.id) := by
  unfold updRec
  rw [List.map_map]
  apply List.map_congr_left
  intro r _
  by_cases h : r.site.id = id
  · simp [h, hf]
  · simp [h]

theorem mem_id_unique {recs : List SysRec}
    (hnd : (recs.map (fun r => r.site.id)).Nodup) {a b : SysRec}
    (ha : a ∈ recs) (hb : b ∈ recs) (hid : a.site.id = b.site.id) : a = b :=
  List.inj_on_of_nodup_map hnd ha hb hid

theorem Inv_init : Inv initState := by
  constructor
  · intro r hr
    cases hr
  · simp [initState]

theorem Inv_step {s s' : SysState} (hi : Inv s) (hs : Step s s') : Inv s' := by
  obtain ⟨hrec, hnd⟩ := hi
  cases hs with
  | create req hhmmss now hv =>
    constructor
    · intro r hr
      rcases List.mem_append.1 hr with h | h
      · obtain ⟨h1, h2⟩ := hrec r h
        exact ⟨h1, Nat.lt_succ_of_lt h2⟩
      · rcases List.mem_singleton.1 h with rfl
        exact ⟨⟨rfl, rfl⟩, Nat.lt_succ_self _⟩
    · simp only [List.map_append, List.map_cons, List.map_nil]
      rw [List.nodup_append]
      refine ⟨hnd, List.nodup_singleton _, ?_⟩
      intro a ha hb
      rcases List.mem_singleton.1 hb with rfl
      rcases List.mem_map.1 ha with ⟨r, hr, hre⟩
      have hlt := (hrec r hr).2
      have hcid : (createSite req hhmmss now s.nextId).id = s.nextId := rfl
      rw [hcid] at hre
      omega
  | jobStart id r0 h0 hid hph =>
    constructor
    · intro r' hr'
      rcases List.mem_map.1 hr' with ⟨r, hr, hre⟩
      by_cases h : r.site.id = id
      · have hq : r = r0 := mem_id_unique hnd hr h0 (by rw [h, hid])
        have hre' : r' = startRec r := by rw [← hre]; simp [h]
        have hhist : r.hist = [Status.pending] := by
          have hp := (hrec r hr).1.1
          rw [hq, hph] at hp
          rw [hq]
          exact hp
        subst hre'
        refine ⟨⟨?_, ?_⟩, ?_⟩
        · show phaseHist JobPhase.started (startRec r).hist
          simp [startRec, hhist, startSite, phaseHist]
        · simp [startRec]
        · exact (hrec r hr).2
      · have hre' : r' = r := by rw [← hre]; simp [h]
        subst hre'
        exact hrec _ hr
    · rw [updRec_map_id s.recs id startRec startRec_site_id]
      exact hnd
  | jobFinish id req gen year deploy_time r0 h0 hid hph =>
    constructor
    · intro r' hr'
      rcases List.mem_map.1 hr' with ⟨r, hr, hre⟩
      by_cases h : r.site.id = id
      · have hq : r = r0 := mem_id_unique hnd hr h0 (by rw [h, hid])
        have hre' : r' = finishRec req gen year deploy_time id r := by
          rw [← hre]; simp [h]
        have hhist : r.hist = [Status.pending, Status.generating] := by
          have hp := (hrec r hr).1.1
          rw [hq, hph] at hp
          rw [hq]
          exact hp
        subst hre'
        refine ⟨⟨?_, ?_⟩, ?_⟩
        · show phaseHist JobPhase.done (finishRec req gen year deploy_time id r).hist
          simp only [finishRec, hhist, finishSite_status]
          cases gen with
          | ok text => exact Or.inl rfl
          | err msg => exact Or.inr rfl
        · simp [finishRec]
        · rw [finishRec_site_id]
          exact (hrec r hr).2
      · have hre' : r' = r := by rw [← hre]; simp [h]
        subst hre'
        exact hrec _ hr
    · rw [updRec_map_id s.recs id (finishRec req gen year deploy_time id)
        (finishRec_site_id req gen year deploy_time id)]
      exact hnd

theorem Inv_reachable (s : SysState) (hs : Reachable s) : Inv s := by
  induction hs with
  | init => exact Inv_init
  | step s s' _ hstep ih => exact Inv_step ih hstep

/-- C1: in every reachable system state, every record's status history
is a prefix of the chain pending → generating → (deployed | failed) —
record creation and the job's two writes only move a status forward
along the chain, and a record that reached `deployed` or `failed` never
goes back to `generating` or `pending` — and the history ends at the
currently stored status. -/
theorem C1_status_lifecycle (s : SysState) (hs : Reachable s) :
    ∀ r ∈ s.recs, chainHist r.hist ∧ r.hist.getLast? = some r.site.status := by
  intro r hr
  obtain ⟨hrec, _⟩ := Inv_reachable s hs
  obtain ⟨⟨hp, hl⟩, _⟩ := hrec r hr
  refine ⟨?_, hl⟩
  cases hph : r.phase with
  | scheduled =>
    rw [hph] at hp
    exact Or.inl hp
  | started =>
    rw [hph] at hp
    exact Or.inr (Or.inl hp)
  | done =>
    rw [hph] at hp
    rcases hp with hp | hp
    · exact Or.inr (Or.inr (Or.inl hp))
    · exact Or.inr (Or.inr (Or.inr hp))

theorem wSysDone_reachable : Reachable wSysDone := by
  have h1 : Step initState wSysCreate :=
    Step.create initState wReq "103000" 1111 (by decide)
  have h2 : Step wSysCreate wSysStart :=
    Step.jobStart wSysCreate 1
      ⟨createSite wReq "103000" 1111 1, JobPhase.scheduled,
        [(createSite wReq "103000" 1111 1).status]⟩
      (List.mem_singleton.2 rfl) rfl rfl
  have h3 : Step wSysStart wSysDone :=
    Step.jobFinish wSysStart 1 wReq (GenResult.ok "Hello world") 2025
      "2025-06-01T12:00:00"
      (startRec ⟨createSite wReq "103000" 1111 1, JobPhase.scheduled,
        [(createSite wReq "103000" 1111 1).status]⟩)
      (List.mem_singleton.2 rfl) rfl rfl
  exact Reachable.step _ _
    (Reachable.step _ _ (Reachable.step _ _ Reachable.init h1) h2) h3

/-- Witness for C1: the record of the concrete trace
create → job start → successful job finish has history exactly
pending, generating, deployed. -/
theorem C1_status_lifecycle_witness :
    chainHist wDoneRec.hist ∧
    wDoneRec.hist.getLast? = some wDoneRec.site.status :=
  C1_status_lifecycle wSysDone wSysDone_reachable wDoneRec
    (List.mem_singleton.2 rfl)

end AutoSEO
